import Mathlib

/-!
Verification of the schema/type translation layer of a columnar data server
(`src/lib/src/data_source/schema.rs`).

The external `DataType` enum and its companions (`TimeUnit`, `IntervalUnit`,
`UnionMode`, `DecimalType`, `TimestampType`, `TimeType`, `DurationType`,
`IntervalType`, `UnionType`, `Field`, `DataSourceSchema`) are embedded as Lean
inductives/structures, and the native (Arrow) side as `ArrowDataType`,
`ArrowField`, `ArrowSchema`.  Rust `u8`/`i8` parameters (decimal precision and
scale, union tags) are carried opaquely by the converters, so they are embedded
as `Nat`/`Int`.  A Rust panic (the `Map` import shape check and the
out-of-bounds indexing `fields[0]`/`fields[1]`) is embedded as `Option.none`.
-/

namespace DatafusionServer

/-- External time unit (`enum TimeUnit` in schema.rs). -/
inductive TimeUnit where
  | Second
  | Millisecond
  | Microsecond
  | Nanosecond
deriving DecidableEq, Repr

/-- Native (Arrow) time unit. -/
inductive ArrowTimeUnit where
  | Second
  | Millisecond
  | Microsecond
  | Nanosecond
deriving DecidableEq, Repr

/-- `TimeUnit::to_arrow_time_unit`. -/
def TimeUnit.to_arrow_time_unit : TimeUnit → ArrowTimeUnit
  | .Second => .Second
  | .Millisecond => .Millisecond
  | .Microsecond => .Microsecond
  | .Nanosecond => .Nanosecond

/-- `TimeUnit::from_arrow_time_unit`. -/
def TimeUnit.from_arrow_time_unit : ArrowTimeUnit → TimeUnit
  | .Second => .Second
  | .Millisecond => .Millisecond
  | .Microsecond => .Microsecond
  | .Nanosecond => .Nanosecond

/-- External interval unit (`enum IntervalUnit` in schema.rs). -/
inductive IntervalUnit where
  | YearMonth
  | DayTime
  | MonthDayNano
deriving DecidableEq, Repr

/-- Native (Arrow) interval unit. -/
inductive ArrowIntervalUnit where
  | YearMonth
  | DayTime
  | MonthDayNano
deriving DecidableEq, Repr

/-- `IntervalUnit::to_arrow_interval_unit`. -/
def IntervalUnit.to_arrow_interval_unit : IntervalUnit → ArrowIntervalUnit
  | .YearMonth => .YearMonth
  | .DayTime => .DayTime
  | .MonthDayNano => .MonthDayNano

/-- `IntervalUnit::from_arrow_interval_unit`. -/
def IntervalUnit.from_arrow_interval_unit : ArrowIntervalUnit → IntervalUnit
  | .YearMonth => .YearMonth
  | .DayTime => .DayTime
  | .MonthDayNano => .MonthDayNano

/-- External union storage mode (`enum UnionMode` in schema.rs). -/
inductive UnionMode where
  | Sparse
  | Dense
deriving DecidableEq, Repr

/-- Native (Arrow) union storage mode. -/
inductive ArrowUnionMode where
  | Sparse
  | Dense
deriving DecidableEq, Repr

/-- `UnionMode::to_arrow_union_mode`. -/
def UnionMode.to_arrow_union_mode : UnionMode → ArrowUnionMode
  | .Sparse => .Sparse
  | .Dense => .Dense

/-- `UnionMode::from_arrow_union_mode`. -/
def UnionMode.from_arrow_union_mode : ArrowUnionMode → UnionMode
  | .Sparse => .Sparse
  | .Dense => .Dense

/-- `struct DecimalType { precision: u8, scale: i8 }`.  The converters carry
precision and scale opaquely (no arithmetic), so `Nat`/`Int` stand in for
`u8`/`i8`. -/
structure DecimalType where
  precision : Nat
  scale : Int
deriving DecidableEq, Repr

/-- `struct TimestampType { unit: TimeUnit, timezone: Option<String> }`. -/
structure TimestampType where
  unit : TimeUnit
  timezone : Option String
deriving DecidableEq, Repr

/-- `struct TimeType { unit: TimeUnit }`. -/
structure TimeType where
  unit : TimeUnit
deriving DecidableEq, Repr

/-- `struct DurationType { unit: TimeUnit }`. -/
structure DurationType where
  unit : TimeUnit
deriving DecidableEq, Repr

/-- `struct IntervalType { unit: IntervalUnit }`. -/
structure IntervalType where
  unit : IntervalUnit
deriving DecidableEq, Repr

mutual

/-- The native (Arrow) data-type tree, as consumed/produced by the converter.
Constructors past `Union` (`Null`, `Binary`, `LargeBinary`, `LargeUtf8`,
`FixedSizeBinary`, `FixedSizeList`) are native types with no dedicated
external variant: `from_arrow_data_type` sends them to `Unknown` through its
catch-all arm. -/
inductive ArrowDataType where
  | Boolean
  | Int8
  | Int16
  | Int32
  | Int64
  | UInt8
  | UInt16
  | UInt32
  | UInt64
  | Float16
  | Float32
  | Float64
  | Decimal128 (precision : Nat) (scale : Int)
  | Decimal256 (precision : Nat) (scale : Int)
  | Timestamp (unit : ArrowTimeUnit) (timezone : Option String)
  | Date32
  | Date64
  | Time32 (unit : ArrowTimeUnit)
  | Time64 (unit : ArrowTimeUnit)
  | Duration (unit : ArrowTimeUnit)
  | Interval (unit : ArrowIntervalUnit)
  | Utf8
  | List (field : ArrowField)
  | LargeList (field : ArrowField)
  | Map (entryField : ArrowField) (keysSorted : Bool)
  | Struct (fields : List ArrowField)
  | Union (fields : List (Int × ArrowField)) (mode : ArrowUnionMode)
  | Null
  | Binary
  | LargeBinary
  | LargeUtf8
  | FixedSizeBinary (size : Nat)
  | FixedSizeList (field : ArrowField) (len : Nat)

/-- A native (Arrow) field: `Field::new(name, data_type, nullable)`. -/
inductive ArrowField where
  | mk (name : String) (dataType : ArrowDataType) (nullable : Bool)

end

/-- Name of a native field. -/
def ArrowField.name : ArrowField → String
  | .mk n _ _ => n

/-- Data type of a native field. -/
def ArrowField.dataType : ArrowField → ArrowDataType
  | .mk _ t _ => t

/-- Nullability flag of a native field. -/
def ArrowField.nullable : ArrowField → Bool
  | .mk _ _ b => b

mutual

/-- `enum DataType` in schema.rs: the external type model.  `Integer`,
`Float`, `Decimal`, `Date` and `Time` are alias variants. -/
inductive DataType where
  | Unknown
  | Boolean
  | Int8
  | Int16
  | Int32
  | Int64
  | UInt8
  | UInt16
  | UInt32
  | UInt64
  | Integer
  | Float16
  | Float32
  | Float64
  | Float
  | Decimal128 (d : DecimalType)
  | Decimal256 (d : DecimalType)
  | Decimal (d : DecimalType)
  | Timestamp (t : TimestampType)
  | Date32
  | Date64
  | Date
  | Time32 (t : TimeType)
  | Time64 (t : TimeType)
  | Time (t : TimeType)
  | Duration (d : DurationType)
  | Interval (i : IntervalType)
  | String
  | List (child : DataType)
  | LargeList (child : DataType)
  | Map (key : DataType) (value : DataType)
  | Struct (fields : List (String × DataType))
  | Union (u : UnionType)

/-- `struct UnionType { types: Vec<(i8, DataType)>, mode: UnionMode }`. -/
inductive UnionType where
  | mk (types : List (Int × DataType)) (mode : UnionMode)

end

/-- The tag/member list of a `UnionType`. -/
def UnionType.types : UnionType → List (Int × DataType)
  | .mk ts _ => ts

/-- The storage mode of a `UnionType`. -/
def UnionType.mode : UnionType → UnionMode
  | .mk _ m => m

/-- `TimestampType::into_arrow_timestamp`. -/
def TimestampType.into_arrow_timestamp (t : TimestampType) : ArrowDataType :=
  .Timestamp t.unit.to_arrow_time_unit t.timezone

/-- `DurationType::into_arrow_duration`. -/
def DurationType.into_arrow_duration (d : DurationType) : ArrowDataType :=
  .Duration d.unit.to_arrow_time_unit

/-- `IntervalType::into_arrow_interval`. -/
def IntervalType.into_arrow_interval (i : IntervalType) : ArrowDataType :=
  .Interval i.unit.to_arrow_interval_unit

mutual

/-- `DataType::to_arrow_data_type`: export an external type to the native
(Arrow) representation.  Total; aliases share the arm of their canonical
variant exactly as the Rust `match` does. -/
def DataType.to_arrow_data_type : DataType → ArrowDataType
  | .Boolean => .Boolean
  | .Int8 => .Int8
  | .Int16 => .Int16
  | .Int32 => .Int32
  | .Int64 | .Integer => .Int64
  | .UInt8 => .UInt8
  | .UInt16 => .UInt16
  | .UInt32 => .UInt32
  | .UInt64 => .UInt64
  | .Float16 => .Float16
  | .Float32 => .Float32
  | .Float64 | .Float => .Float64
  | .Decimal128 d => .Decimal128 d.precision d.scale
  | .Decimal d | .Decimal256 d => .Decimal256 d.precision d.scale
  | .Timestamp t => t.into_arrow_timestamp
  | .Date32 => .Date32
  | .Date64 | .Date => .Date64
  | .Time32 t | .Time t => .Time32 t.unit.to_arrow_time_unit
  | .Time64 t => .Time64 t.unit.to_arrow_time_unit
  | .Duration d => d.into_arrow_duration
  | .Interval i => i.into_arrow_interval
  | .String => .Utf8
  | .List child => .List (.mk "item" child.to_arrow_data_type true)
  | .LargeList child => .LargeList (.mk "item" child.to_arrow_data_type true)
  | .Map key value =>
      .Map
        (.mk "entry"
          (.Struct
            [.mk "key" key.to_arrow_data_type false,
             .mk "value" value.to_arrow_data_type true])
          false)
        false
  | .Struct fields => .Struct (structFieldsToArrow fields)
  | .Union (.mk types mode) =>
      .Union (unionTypesToArrow types) mode.to_arrow_union_mode
  | .Unknown => .Binary

/-- The `fields.iter().map(...)` of the `Struct` export arm: each `(name, t)`
pair becomes a native field named `name`, nullable. -/
def structFieldsToArrow : List (String × DataType) → List ArrowField
  | [] => []
  | (name, t) :: rest =>
      .mk name t.to_arrow_data_type true :: structFieldsToArrow rest

/-- The `Union` export arm's parallel traversal: the zip of `type_ids` and
`fields` built in `to_arrow_data_type` (tags in input order, each member field
named `""`, nullable). -/
def unionTypesToArrow : List (Int × DataType) → List (Int × ArrowField)
  | [] => []
  | (tag, t) :: rest =>
      (tag, .mk "" t.to_arrow_data_type true) :: unionTypesToArrow rest

end

mutual

/-- `DataType::from_arrow_data_type`: import a native (Arrow) type.  The Rust
function returns `DataType` but can panic: on a native `Map` whose inner type
is not a struct (the explicit panic call), and on the indexing `fields[0]` /
`fields[1]` when the inner struct has fewer than two fields.  Both aborts are
embedded as `none`; every non-panicking path yields `some`.  The final
catch-all arm (`_ => DataType::Unknown`) covers every native constructor with
no dedicated external variant. -/
def DataType.from_arrow_data_type : ArrowDataType → Option DataType
  | .Boolean => some .Boolean
  | .Int8 => some .Int8
  | .Int16 => some .Int16
  | .Int32 => some .Int32
  | .Int64 => some .Int64
  | .UInt8 => some .UInt8
  | .UInt16 => some .UInt16
  | .UInt32 => some .UInt32
  | .UInt64 => some .UInt64
  | .Float16 => some .Float16
  | .Float32 => some .Float32
  | .Float64 => some .Float64
  | .Decimal128 precision scale => some (.Decimal128 ⟨precision, scale⟩)
  | .Decimal256 precision scale => some (.Decimal256 ⟨precision, scale⟩)
  | .Timestamp unit tz =>
      some (.Timestamp ⟨TimeUnit.from_arrow_time_unit unit, tz⟩)
  | .Date32 => some .Date32
  | .Date64 => some .Date64
  | .Time32 unit => some (.Time32 ⟨TimeUnit.from_arrow_time_unit unit⟩)
  | .Time64 unit => some (.Time64 ⟨TimeUnit.from_arrow_time_unit unit⟩)
  | .Duration unit => some (.Duration ⟨TimeUnit.from_arrow_time_unit unit⟩)
  | .Interval unit =>
      some (.Interval ⟨IntervalUnit.from_arrow_interval_unit unit⟩)
  | .Utf8 => some .String
  | .List (.mk _ t _) =>
      match DataType.from_arrow_data_type t with
      | some child => some (.List child)
      | none => none
  | .LargeList (.mk _ t _) =>
      match DataType.from_arrow_data_type t with
      | some child => some (.LargeList child)
      | none => none
  | .Map (.mk _ inner _) _ =>
      match inner with
      | .Struct (.mk _ t0 _ :: .mk _ t1 _ :: _) =>
          match DataType.from_arrow_data_type t0, DataType.from_arrow_data_type t1 with
          | some key, some value => some (.Map key value)
          | _, _ => none
      | _ => none
  | .Struct fields =>
      match fromArrowStructFields fields with
      | some fs => some (.Struct fs)
      | none => none
  | .Union ufields mode =>
      match fromArrowUnionFields ufields with
      | some ts => some (.Union (.mk ts (UnionMode.from_arrow_union_mode mode)))
      | none => none
  | _ => some .Unknown

/-- The `fields.iter().map(...)` of the `Struct` import arm: each native field
becomes `(name, imported type)`; a panic in any element aborts the
whole import. -/
def fromArrowStructFields : List ArrowField → Option (List (String × DataType))
  | [] => some []
  | .mk name t _ :: rest =>
      match DataType.from_arrow_data_type t, fromArrowStructFields rest with
      | some t', some rest' => some ((name, t') :: rest')
      | _, _ => none

/-- The `union_fields.iter().map(...)` of the `Union` import arm: each
`(tag, field)` pair becomes `(tag, imported type)`. -/
def fromArrowUnionFields :
    List (Int × ArrowField) → Option (List (Int × DataType))
  | [] => some []
  | (tag, .mk _ t _) :: rest =>
      match DataType.from_arrow_data_type t, fromArrowUnionFields rest with
      | some t', some rest' => some ((tag, t') :: rest')
      | _, _ => none

end

mutual

/-- Specification-side predicate: `t` contains no alias variant (`Integer`,
`Float`, `Decimal`, `Date`, `Time`) at any depth.  Used to state the
round-trip claims; not part of the source. -/
def DataType.isNonAlias : DataType → Bool
  | .Integer => false
  | .Float => false
  | .Decimal _ => false
  | .Date => false
  | .Time _ => false
  | .List child => child.isNonAlias
  | .LargeList child => child.isNonAlias
  | .Map key value => key.isNonAlias && value.isNonAlias
  | .Struct fields => structFieldsNonAlias fields
  | .Union (.mk types _) => unionTypesNonAlias types
  | _ => true

/-- All member types of a struct field list are alias-free. -/
def structFieldsNonAlias : List (String × DataType) → Bool
  | [] => true
  | (_, t) :: rest => t.isNonAlias && structFieldsNonAlias rest

/-- All member types of a union tag/type list are alias-free. -/
def unionTypesNonAlias : List (Int × DataType) → Bool
  | [] => true
  | (_, t) :: rest => t.isNonAlias && unionTypesNonAlias rest

end

/-- `struct Field { name, data_type, nullable: Option<bool> }`. -/
structure Field where
  name : String
  data_type : DataType
  nullable : Option Bool

/-- `Field::to_arrow_field`: `nullable.unwrap_or(true)` supplies the default
when no explicit nullability is present. -/
def Field.to_arrow_field (f : Field) : ArrowField :=
  .mk f.name f.data_type.to_arrow_data_type (f.nullable.getD true)

/-- `Field::from_arrow_field`: always populates `nullable` with
`Some(field.is_nullable())`.  A panic inside the data-type import propagates
(`none`). -/
def Field.from_arrow_field (f : ArrowField) : Option Field :=
  match DataType.from_arrow_data_type f.dataType with
  | some t => some ⟨f.name, t, some f.nullable⟩
  | none => none

/-- A native (Arrow) schema: its ordered field list. -/
structure ArrowSchema where
  fields : List ArrowField

/-- `struct DataSourceSchema { fields: Vec<Field> }`. -/
structure DataSourceSchema where
  fields : List Field

/-- `DataSourceSchema::to_arrow_schema`: the loop pushes, per field in order,
`Field::new(name, data_type.to_arrow_data_type(), nullable.unwrap_or(true))`. -/
def DataSourceSchema.to_arrow_schema (s : DataSourceSchema) : ArrowSchema :=
  ⟨s.fields.map fun f =>
    ArrowField.mk f.name f.data_type.to_arrow_data_type (f.nullable.getD true)⟩

/-- The loop body sequence of `DataSourceSchema::from_arrow_schema`: converts
each native field in order with `Field::from_arrow_field`; a panic anywhere
aborts the whole conversion. -/
def fromArrowSchemaFields : List ArrowField → Option (List Field)
  | [] => some []
  | f :: rest =>
      match Field.from_arrow_field f, fromArrowSchemaFields rest with
      | some f', some rest' => some (f' :: rest')
      | _, _ => none

/-- `DataSourceSchema::from_arrow_schema`. -/
def DataSourceSchema.from_arrow_schema (s : ArrowSchema) : Option DataSourceSchema :=
  match fromArrowSchemaFields s.fields with
  | some fs => some ⟨fs⟩
  | none => none

mutual

/-- Specification-side predicate mirroring the traversal of
`from_arrow_data_type`: `true` iff no `Map` node visited by the import wraps
anything other than a struct of at least two fields, i.e. iff the import does
not panic. -/
def ArrowDataType.mapShapeOk : ArrowDataType → Bool
  | .List (.mk _ t _) => t.mapShapeOk
  | .LargeList (.mk _ t _) => t.mapShapeOk
  | .Map (.mk _ inner _) _ =>
      match inner with
      | .Struct (.mk _ t0 _ :: .mk _ t1 _ :: _) => t0.mapShapeOk && t1.mapShapeOk
      | _ => false
  | .Struct fields => arrowStructShapeOk fields
  | .Union ufields _ => arrowUnionShapeOk ufields
  | _ => true

/-- `mapShapeOk` over the fields of a native struct. -/
def arrowStructShapeOk : List ArrowField → Bool
  | [] => true
  | .mk _ t _ :: rest => t.mapShapeOk && arrowStructShapeOk rest

/-- `mapShapeOk` over the members of a native union. -/
def arrowUnionShapeOk : List (Int × ArrowField) → Bool
  | [] => true
  | (_, .mk _ t _) :: rest => t.mapShapeOk && arrowUnionShapeOk rest

end

/-- Specification-side predicate: the top-level constructor of the native type
has a dedicated (non-catch-all) arm in `from_arrow_data_type`. -/
def ArrowDataType.hasExternalVariant : ArrowDataType → Bool
  | .Null => false
  | .Binary => false
  | .LargeBinary => false
  | .LargeUtf8 => false
  | .FixedSizeBinary _ => false
  | .FixedSizeList _ _ => false
  | _ => true

/-- A sample alias-free external type of nesting depth well above 10, used to
instantiate the round-trip theorems on a concrete deeply nested input. -/
def deepSample : DataType :=
  .List (.LargeList (.Map .String (.List (.Struct
    [("a", .Union (.mk
        [(5, .List (.List (.Timestamp ⟨.Nanosecond, some "UTC"⟩))),
         (-3, .Decimal128 ⟨38, -2⟩)] .Dense)),
     ("b", .Map (.Time32 ⟨.Millisecond⟩) (.LargeList .Unknown))]))))

theorem time_unit_roundtrip (u : TimeUnit) :
    TimeUnit.from_arrow_time_unit u.to_arrow_time_unit = u := by
  cases u <;> rfl

theorem interval_unit_roundtrip (u : IntervalUnit) :
    IntervalUnit.from_arrow_interval_unit u.to_arrow_interval_unit = u := by
  cases u <;> rfl

theorem union_mode_roundtrip (m : UnionMode) :
    UnionMode.from_arrow_union_mode m.to_arrow_union_mode = m := by
  cases m <;> rfl

mutual

/-- Shared helper: importing the export of an alias-free external type
recovers it exactly. -/
theorem roundtrip_data_type (t : DataType) (h : t.isNonAlias = true) :
    DataType.from_arrow_data_type t.to_arrow_data_type = some t := by
  match t with
  | .Unknown => rfl
  | .Boolean => rfl
  | .Int8 => rfl
  | .Int16 => rfl
  | .Int32 => rfl
  | .Int64 => rfl
  | .UInt8 => rfl
  | .UInt16 => rfl
  | .UInt32 => rfl
  | .UInt64 => rfl
  | .Integer => simp [DataType.isNonAlias] at h
  | .Float16 => rfl
  | .Float32 => rfl
  | .Float64 => rfl
  | .Float => simp [DataType.isNonAlias] at h
  | .Decimal128 d => rfl
  | .Decimal256 d => rfl
  | .Decimal d => simp [DataType.isNonAlias] at h
  | .Timestamp ⟨u, tz⟩ => cases u <;> rfl
  | .Date32 => rfl
  | .Date64 => rfl
  | .Date => simp [DataType.isNonAlias] at h
  | .Time32 ⟨u⟩ => cases u <;> rfl
  | .Time64 ⟨u⟩ => cases u <;> rfl
  | .Time u => simp [DataType.isNonAlias] at h
  | .Duration ⟨u⟩ => cases u <;> rfl
  | .Interval ⟨u⟩ => cases u <;> rfl
  | .String => rfl
  | .List child =>
      have hc : child.isNonAlias = true := by
        simpa [DataType.isNonAlias] using h
      have ih := roundtrip_data_type child hc
      simp [DataType.to_arrow_data_type, DataType.from_arrow_data_type, ih]
  | .LargeList child =>
      have hc : child.isNonAlias = true := by
        simpa [DataType.isNonAlias] using h
      have ih := roundtrip_data_type child hc
      simp [DataType.to_arrow_data_type, DataType.from_arrow_data_type, ih]
  | .Map key value =>
      have hk : key.isNonAlias = true := by
        simp [DataType.isNonAlias] at h; exact h.1
      have hv : value.isNonAlias = true := by
        simp [DataType.isNonAlias] at h; exact h.2
      have ihk := roundtrip_data_type key hk
      have ihv := roundtrip_data_type value hv
      simp [DataType.to_arrow_data_type, DataType.from_arrow_data_type, ihk, ihv]
  | .Struct fields =>
      have hf : structFieldsNonAlias fields = true := by
        simpa [DataType.isNonAlias] using h
      have ih := roundtrip_struct_fields fields hf
      simp [DataType.to_arrow_data_type, DataType.from_arrow_data_type, ih]
  | .Union (.mk types mode) =>
      have ht : unionTypesNonAlias types = true := by
        simpa [DataType.isNonAlias] using h
      have ih := roundtrip_union_types types ht
      cases mode <;>
        simp [DataType.to_arrow_data_type, DataType.from_arrow_data_type, ih,
          UnionMode.to_arrow_union_mode, UnionMode.from_arrow_union_mode]

/-- Shared helper: struct-field lists of alias-free types round-trip. -/
theorem roundtrip_struct_fields (fs : List (String × DataType))
    (h : structFieldsNonAlias fs = true) :
    fromArrowStructFields (structFieldsToArrow fs) = some fs := by
  match fs with
  | [] => rfl
  | (name, t) :: rest =>
      have h1 : t.isNonAlias = true := by
        simp [structFieldsNonAlias] at h; exact h.1
      have h2 : structFieldsNonAlias rest = true := by
        simp [structFieldsNonAlias] at h; exact h.2
      have ih1 := roundtrip_data_type t h1
      have ih2 := roundtrip_struct_fields rest h2
      simp [structFieldsToArrow, fromArrowStructFields, ih1, ih2]

/-- Shared helper: union tag/type lists of alias-free types round-trip. -/
theorem roundtrip_union_types (ts : List (Int × DataType))
    (h : unionTypesNonAlias ts = true) :
    fromArrowUnionFields (unionTypesToArrow ts) = some ts := by
  match ts with
  | [] => rfl
  | (tag, t) :: rest =>
      have h1 : t.isNonAlias = true := by
        simp [unionTypesNonAlias] at h; exact h.1
      have h2 : unionTypesNonAlias rest = true := by
        simp [unionTypesNonAlias] at h; exact h.2
      have ih1 := roundtrip_data_type t h1
      have ih2 := roundtrip_union_types rest h2
      simp [unionTypesToArrow, fromArrowUnionFields, ih1, ih2]

end

/-- C1: for every external type containing no alias variant — parametric and
nested variants of any depth included — exporting to the native representation
and importing back yields the same type, structurally. -/
theorem C1_nonalias_roundtrip (t : DataType) (h : t.isNonAlias = true) :
    DataType.from_arrow_data_type t.to_arrow_data_type = some t :=
  roundtrip_data_type t h

/-- Witness for C1 at a concrete alias-free type of nesting depth above 10. -/
theorem C1_nonalias_roundtrip_witness :
    deepSample.isNonAlias = true ∧
    DataType.from_arrow_data_type deepSample.to_arrow_data_type = some deepSample :=
  ⟨rfl, C1_nonalias_roundtrip deepSample rfl⟩

/-- C2: the claim requires importing a native `Map` whose inner entry type is
not a two-or-more-field struct to yield a recoverable, reported error; the
code instead panics (aborts): `from_arrow_data_type` hits the explicit panic
on a non-struct inner type and an out-of-bounds index on a short struct; `none`
embeds the abort: these inputs abort rather than return a reported error. -/
theorem C2_map_import_aborts :
    DataType.from_arrow_data_type
      (.Map (.mk "entries" .Int32 false) false) = none ∧
    DataType.from_arrow_data_type
      (.Map (.mk "entries" (.Struct []) false) false) = none ∧
    DataType.from_arrow_data_type
      (.Map (.mk "entries" (.Struct [.mk "key" .Int32 false]) false) false) = none :=
  ⟨rfl, rfl, rfl⟩

/-- C3 counterexample: the claim's second half — no native type converts back
to `Unknown` — fails at the native `Binary` type, which the import's catch-all
arm sends to `Unknown`. -/
theorem C3_counterexample :
    ¬ (∀ n : ArrowDataType,
        DataType.from_arrow_data_type n ≠ some DataType.Unknown) :=
  fun h => h .Binary rfl

/-- C3 amended: `Unknown` exports to the native `Binary` type, and the import
catch-all does map `Binary` back to `Unknown`, so
`from-native(to-native(Unknown)) = Unknown` rather than no native type mapping
to `Unknown`. -/
theorem C3_unknown_binary :
    DataType.to_arrow_data_type .Unknown = .Binary ∧
    DataType.from_arrow_data_type .Binary = some .Unknown ∧
    DataType.from_arrow_data_type (DataType.to_arrow_data_type .Unknown)
      = some .Unknown :=
  ⟨rfl, rfl, rfl⟩

/-- C4: each alias variant exports identically to its canonical target, and
importing that export yields the canonical target, never the alias:
`Integer ↦ Int64`, `Float ↦ Float64`, `Decimal(p,s) ↦ Decimal256(p,s)`,
`Date ↦ Date64`, `Time(unit) ↦ Time32(unit)`. -/
theorem C4_alias_canonicalization :
    (DataType.Integer.to_arrow_data_type = DataType.Int64.to_arrow_data_type ∧
      DataType.from_arrow_data_type DataType.Integer.to_arrow_data_type
        = some DataType.Int64) ∧
    (DataType.Float.to_arrow_data_type = DataType.Float64.to_arrow_data_type ∧
      DataType.from_arrow_data_type DataType.Float.to_arrow_data_type
        = some DataType.Float64) ∧
    (∀ d : DecimalType,
      (DataType.Decimal d).to_arrow_data_type
          = (DataType.Decimal256 d).to_arrow_data_type ∧
      DataType.from_arrow_data_type (DataType.Decimal d).to_arrow_data_type
          = some (DataType.Decimal256 d)) ∧
    (DataType.Date.to_arrow_data_type = DataType.Date64.to_arrow_data_type ∧
      DataType.from_arrow_data_type DataType.Date.to_arrow_data_type
        = some DataType.Date64) ∧
    (∀ t : TimeType,
      (DataType.Time t).to_arrow_data_type
          = (DataType.Time32 t).to_arrow_data_type ∧
      DataType.from_arrow_data_type (DataType.Time t).to_arrow_data_type
          = some (DataType.Time32 t)) := by
  refine ⟨⟨rfl, rfl⟩, ⟨rfl, rfl⟩, fun d => ⟨rfl, rfl⟩, ⟨rfl, rfl⟩,
    fun t => ⟨rfl, ?_⟩⟩
  cases t with
  | mk u => cases u <;> rfl

/-- Witness for C4 at concrete decimal and time parameters. -/
theorem C4_alias_canonicalization_witness :
    DataType.from_arrow_data_type (DataType.Decimal ⟨10, 2⟩).to_arrow_data_type
      = some (DataType.Decimal256 ⟨10, 2⟩) ∧
    DataType.from_arrow_data_type (DataType.Time ⟨.Second⟩).to_arrow_data_type
      = some (DataType.Time32 ⟨.Second⟩) :=
  ⟨(C4_alias_canonicalization.2.2.1 ⟨10, 2⟩).2,
   (C4_alias_canonicalization.2.2.2.2 ⟨.Second⟩).2⟩

/-- C5 counterexample: the claim's round-trip half fails when the key type is
an alias: `Map(Integer, Int32)` imports back as `Map(Int64, Int32)`, not
`Map(Integer, Int32)`. -/
theorem C5_counterexample :
    DataType.from_arrow_data_type (DataType.Map .Integer .Int32).to_arrow_data_type
      = some (DataType.Map .Int64 .Int32) ∧
    some (DataType.Map .Int64 .Int32) ≠ some (DataType.Map .Integer .Int32) :=
  ⟨rfl, by simp⟩

/-- C5 amended: for every key type K and value type V, `Map(K, V)` exports to
a native Map wrapping a single non-nullable `"entry"` field whose type is a
two-field struct — non-nullable `"key"` first, nullable `"value"` second; and
when K and V contain no alias variants, importing that export yields
`Map(K, V)` again. -/
theorem C5_map_encoding (K V : DataType) :
    (DataType.Map K V).to_arrow_data_type
      = .Map (.mk "entry"
          (.Struct [.mk "key" K.to_arrow_data_type false,
                    .mk "value" V.to_arrow_data_type true]) false) false ∧
    (K.isNonAlias = true → V.isNonAlias = true →
      DataType.from_arrow_data_type (DataType.Map K V).to_arrow_data_type
        = some (DataType.Map K V)) := by
  refine ⟨rfl, fun hK hV => ?_⟩
  exact roundtrip_data_type (.Map K V) (by simp [DataType.isNonAlias, hK, hV])

/-- Witness for C5 at the spec's own example `Map(String, Int32)`. -/
theorem C5_map_encoding_witness :
    DataType.String.isNonAlias = true ∧
    DataType.Int32.isNonAlias = true ∧
    (DataType.Map .String .Int32).to_arrow_data_type
      = .Map (.mk "entry"
          (.Struct [.mk "key" .Utf8 false, .mk "value" .Int32 true]) false) false ∧
    DataType.from_arrow_data_type (DataType.Map .String .Int32).to_arrow_data_type
      = some (DataType.Map .String .Int32) :=
  ⟨rfl, rfl, (C5_map_encoding .String .Int32).1,
    (C5_map_encoding .String .Int32).2 rfl rfl⟩


mutual

theorem from_isSome_eq_mapShapeOk (n : ArrowDataType) :
    (DataType.from_arrow_data_type n).isSome = n.mapShapeOk := by
  match n with
  | .Boolean | .Int8 | .Int16 | .Int32 | .Int64
  | .UInt8 | .UInt16 | .UInt32 | .UInt64
  | .Float16 | .Float32 | .Float64
  | .Decimal128 _ _ | .Decimal256 _ _ | .Timestamp _ _
  | .Date32 | .Date64 | .Time32 _ | .Time64 _ | .Duration _ | .Interval _
  | .Utf8 | .Null | .Binary | .LargeBinary | .LargeUtf8
  | .FixedSizeBinary _ | .FixedSizeList _ _ => rfl
  | .List (.mk nm t nb) =>
      have ih := from_isSome_eq_mapShapeOk t
      simp only [DataType.from_arrow_data_type, ArrowDataType.mapShapeOk, ← ih]
      cases DataType.from_arrow_data_type t <;> rfl
  | .LargeList (.mk nm t nb) =>
      have ih := from_isSome_eq_mapShapeOk t
      simp only [DataType.from_arrow_data_type, ArrowDataType.mapShapeOk, ← ih]
      cases DataType.from_arrow_data_type t <;> rfl
  | .Map (.mk nm inner nb) ks =>
      match inner with
      | .Struct [] => rfl
      | .Struct [.mk _ _ _] => rfl
      | .Struct (.mk _ t0 _ :: .mk _ t1 _ :: rest) =>
          have ih0 := from_isSome_eq_mapShapeOk t0
          have ih1 := from_isSome_eq_mapShapeOk t1
          simp only [DataType.from_arrow_data_type, ArrowDataType.mapShapeOk, ← ih0, ← ih1]
          cases DataType.from_arrow_data_type t0 <;>
            cases DataType.from_arrow_data_type t1 <;> rfl
      | .Boolean | .Int8 | .Int16 | .Int32 | .Int64
      | .UInt8 | .UInt16 | .UInt32 | .UInt64
      | .Float16 | .Float32 | .Float64
      | .Decimal128 _ _ | .Decimal256 _ _ | .Timestamp _ _
      | .Date32 | .Date64 | .Time32 _ | .Time64 _ | .Duration _ | .Interval _
      | .Utf8 | .Null | .Binary | .LargeBinary | .LargeUtf8
      | .FixedSizeBinary _ | .FixedSizeList _ _
      | .List _ | .LargeList _ | .Map _ _ | .Union _ _ => rfl
  | .Struct fields =>
      have ih := fromStruct_isSome_eq fields
      simp only [DataType.from_arrow_data_type, ArrowDataType.mapShapeOk, ← ih]
      cases fromArrowStructFields fields <;> rfl
  | .Union ufields mode =>
      have ih := fromUnion_isSome_eq ufields
      simp only [DataType.from_arrow_data_type, ArrowDataType.mapShapeOk, ← ih]
      cases fromArrowUnionFields ufields <;> rfl

theorem fromStruct_isSome_eq (fs : List ArrowField) :
    (fromArrowStructFields fs).isSome = arrowStructShapeOk fs := by
  match fs with
  | [] => rfl
  | .mk nm t nb :: rest =>
      have ih1 := from_isSome_eq_mapShapeOk t
      have ih2 := fromStruct_isSome_eq rest
      simp only [fromArrowStructFields, arrowStructShapeOk, ← ih1, ← ih2]
      cases DataType.from_arrow_data_type t <;>
        cases fromArrowStructFields rest <;> rfl

theorem fromUnion_isSome_eq (ufs : List (Int × ArrowField)) :
    (fromArrowUnionFields ufs).isSome = arrowUnionShapeOk ufs := by
  match ufs with
  | [] => rfl
  | (tag, .mk nm t nb) :: rest =>
      have ih1 := from_isSome_eq_mapShapeOk t
      have ih2 := fromUnion_isSome_eq rest
      simp only [fromArrowUnionFields, arrowUnionShapeOk, ← ih1, ← ih2]
      cases DataType.from_arrow_data_type t <;>
        cases fromArrowUnionFields rest <;> rfl

end

/-- C6: the import is total away from the Map-shape precondition — it
succeeds exactly when every `Map` node it visits wraps a struct of at least
two fields — and every native type whose top-level constructor has no
dedicated external variant imports as `Unknown` instead of failing. -/
theorem C6_import_totality (n : ArrowDataType) :
    (DataType.from_arrow_data_type n).isSome = n.mapShapeOk ∧
    (n.hasExternalVariant = false →
      DataType.from_arrow_data_type n = some .Unknown) := by
  refine ⟨from_isSome_eq_mapShapeOk n, ?_⟩
  match n with
  | .Null | .Binary | .LargeBinary | .LargeUtf8
  | .FixedSizeBinary _ | .FixedSizeList _ _ => exact fun _ => rfl
  | .Boolean | .Int8 | .Int16 | .Int32 | .Int64
  | .UInt8 | .UInt16 | .UInt32 | .UInt64
  | .Float16 | .Float32 | .Float64
  | .Decimal128 _ _ | .Decimal256 _ _ | .Timestamp _ _
  | .Date32 | .Date64 | .Time32 _ | .Time64 _ | .Duration _ | .Interval _
  | .Utf8 | .List _ | .LargeList _ | .Map _ _ | .Struct _ | .Union _ _ =>
      intro h
      simp [ArrowDataType.hasExternalVariant] at h

/-- Witness for C6 at the native `Null` type, which has no external variant. -/
theorem C6_import_totality_witness :
    ArrowDataType.Null.hasExternalVariant = false ∧
    (DataType.from_arrow_data_type .Null).isSome = ArrowDataType.Null.mapShapeOk ∧
    DataType.from_arrow_data_type .Null = some .Unknown :=
  ⟨rfl, (C6_import_totality .Null).1, (C6_import_totality .Null).2 rfl⟩

/-- C7: exporting a `Field` takes `nullable` to be `true` when absent and the
given boolean when present; every `Field` the import produces carries an
explicit `nullable` equal to the native field's nullability flag. -/
theorem C7_field_nullability :
    (∀ (name : String) (dt : DataType),
        (Field.mk name dt none).to_arrow_field
          = .mk name dt.to_arrow_data_type true) ∧
    (∀ (name : String) (dt : DataType) (b : Bool),
        (Field.mk name dt (some b)).to_arrow_field
          = .mk name dt.to_arrow_data_type b) ∧
    (∀ (af : ArrowField) (f : Field),
        Field.from_arrow_field af = some f → f.nullable = some af.nullable) := by
  refine ⟨fun _ _ => rfl, fun _ _ _ => rfl, fun af f h => ?_⟩
  unfold Field.from_arrow_field at h
  split at h
  · injection h with h'
    subst h'
    rfl
  · exact Option.noConfusion h

/-- Witness for C7 at concrete fields. -/
theorem C7_field_nullability_witness :
    (Field.mk "a" .Boolean none).to_arrow_field = .mk "a" .Boolean true ∧
    (Field.mk "a" .Boolean (some false)).to_arrow_field = .mk "a" .Boolean false ∧
    Field.from_arrow_field (.mk "b" .Int32 false)
      = some ⟨"b", .Int32, some false⟩ ∧
    (Field.mk "b" .Int32 (some false)).nullable
      = some (ArrowField.mk "b" .Int32 false).nullable :=
  ⟨C7_field_nullability.1 "a" .Boolean,
   C7_field_nullability.2.1 "a" .Boolean false,
   rfl,
   C7_field_nullability.2.2 (.mk "b" .Int32 false) ⟨"b", .Int32, some false⟩ rfl⟩

/-- The union export traversal is a map: tags in input order, each member
field named `""` and nullable. -/
theorem unionTypesToArrow_eq_map (ts : List (Int × DataType)) :
    unionTypesToArrow ts
      = ts.map fun p => (p.1, ArrowField.mk "" p.2.to_arrow_data_type true) := by
  induction ts with
  | nil => rfl
  | cons p rest ih =>
      cases p with
      | mk tag t => simp [unionTypesToArrow, ih]

/-- C8 counterexample: with an alias member type the round trip does not
preserve the (tag, member type) association: tag 0's `Integer` comes back as
`Int64`. -/
theorem C8_counterexample :
    DataType.from_arrow_data_type
        (DataType.Union (.mk [(0, .Integer)] .Sparse)).to_arrow_data_type
      = some (DataType.Union (.mk [(0, .Int64)] .Sparse)) ∧
    some (DataType.Union (.mk [(0, .Int64)] .Sparse))
      ≠ some (DataType.Union (.mk [(0, .Integer)] .Sparse)) :=
  ⟨rfl, by simp⟩

/-- C8 amended: the export of a `Union` lists the tags in input order, each
member field named `""`, and converts the mode exactly; when the member types
contain no alias variants, importing the export recovers the ordered
(tag, member type) list and the mode exactly — for any tags, non-contiguous or
descending included. -/
theorem C8_union_roundtrip (types : List (Int × DataType)) (mode : UnionMode) :
    (DataType.Union (.mk types mode)).to_arrow_data_type
      = .Union (types.map fun p => (p.1, ArrowField.mk "" p.2.to_arrow_data_type true))
          mode.to_arrow_union_mode ∧
    (unionTypesNonAlias types = true →
      DataType.from_arrow_data_type
          (DataType.Union (.mk types mode)).to_arrow_data_type
        = some (DataType.Union (.mk types mode))) := by
  constructor
  · simp [DataType.to_arrow_data_type, unionTypesToArrow_eq_map]
  · intro h
    exact roundtrip_data_type (.Union (.mk types mode))
      (by simpa [DataType.isNonAlias] using h)

/-- Witness for C8 with descending, non-contiguous tags and dense mode. -/
theorem C8_union_roundtrip_witness :
    unionTypesNonAlias [(5, DataType.Int32), (-3, DataType.String)] = true ∧
    (DataType.Union (.mk [(5, .Int32), (-3, .String)] .Dense)).to_arrow_data_type
      = (.Union [(5, .mk "" .Int32 true), (-3, .mk "" .Utf8 true)] .Dense) ∧
    DataType.from_arrow_data_type
        (DataType.Union (.mk [(5, .Int32), (-3, .String)] .Dense)).to_arrow_data_type
      = some (DataType.Union (.mk [(5, .Int32), (-3, .String)] .Dense)) :=
  ⟨rfl,
   (C8_union_roundtrip [(5, .Int32), (-3, .String)] .Dense).1,
   (C8_union_roundtrip [(5, .Int32), (-3, .String)] .Dense).2 rfl⟩

/-- The schema import loop converts the i-th native field into the i-th
external field: element-wise correspondence, hence order and count. -/
theorem fromArrowSchemaFields_forall₂ (l : List ArrowField) (fs : List Field)
    (h : fromArrowSchemaFields l = some fs) :
    List.Forall₂ (fun af f => Field.from_arrow_field af = some f) l fs := by
  induction l generalizing fs with
  | nil =>
      simp [fromArrowSchemaFields] at h
      subst h
      exact List.Forall₂.nil
  | cons a rest ih =>
      unfold fromArrowSchemaFields at h
      cases ha : Field.from_arrow_field a with
      | none => rw [ha] at h; exact Option.noConfusion h
      | some f' =>
          cases hrest : fromArrowSchemaFields rest with
          | none => rw [ha, hrest] at h; exact Option.noConfusion h
          | some fs' =>
              rw [ha, hrest] at h
              injection h with h'
              subst h'
              exact List.Forall₂.cons ha (ih fs' hrest)

/-- C9: schema export maps the field converter over the field list preserving
order and count; schema import converts the i-th native field to the i-th
external field; the empty schema round-trips to the empty schema. -/
theorem C9_schema_mapping :
    (∀ s : DataSourceSchema,
        s.to_arrow_schema.fields.length = s.fields.length ∧
        ∀ i : Nat, s.to_arrow_schema.fields.get? i
          = (s.fields.get? i).map Field.to_arrow_field) ∧
    (∀ (a : ArrowSchema) (s : DataSourceSchema),
        DataSourceSchema.from_arrow_schema a = some s →
        s.fields.length = a.fields.length ∧
        List.Forall₂ (fun af f => Field.from_arrow_field af = some f)
          a.fields s.fields) ∧
    (DataSourceSchema.to_arrow_schema ⟨[]⟩ = ⟨[]⟩ ∧
      DataSourceSchema.from_arrow_schema ⟨[]⟩ = some ⟨[]⟩) := by
  refine ⟨fun s => ⟨?_, fun i => ?_⟩, fun a s h => ?_, rfl, rfl⟩
  · simp [DataSourceSchema.to_arrow_schema]
  · simp only [DataSourceSchema.to_arrow_schema]
    rw [List.get?_eq_getElem?, List.getElem?_map, ← List.get?_eq_getElem?]
    cases s.fields.get? i <;> rfl
  · unfold DataSourceSchema.from_arrow_schema at h
    cases hf : fromArrowSchemaFields a.fields with
    | none => rw [hf] at h; exact Option.noConfusion h
    | some fs =>
        rw [hf] at h
        injection h with h'
        subst h'
        have h2 := fromArrowSchemaFields_forall₂ a.fields fs hf
        exact ⟨h2.length_eq.symm, h2⟩

/-- Witness for C9 at a one-field schema. -/
theorem C9_schema_mapping_witness :
    DataSourceSchema.from_arrow_schema ⟨[.mk "x" .Int32 true]⟩
      = some ⟨[⟨"x", .Int32, some true⟩]⟩ ∧
    (DataSourceSchema.mk [⟨"x", .Int32, some true⟩]).fields.length
      = (ArrowSchema.mk [.mk "x" .Int32 true]).fields.length ∧
    List.Forall₂ (fun af f => Field.from_arrow_field af = some f)
      [ArrowField.mk "x" .Int32 true] [Field.mk "x" .Int32 (some true)] ∧
    DataSourceSchema.to_arrow_schema ⟨[]⟩ = ⟨[]⟩ :=
  ⟨rfl,
   (C9_schema_mapping.2.1 ⟨[.mk "x" .Int32 true]⟩ ⟨[⟨"x", .Int32, some true⟩]⟩ rfl).1,
   (C9_schema_mapping.2.1 ⟨[.mk "x" .Int32 true]⟩ ⟨[⟨"x", .Int32, some true⟩]⟩ rfl).2,
   C9_schema_mapping.2.2.1⟩

/-- Struct import depends only on each field's name and data type (nullability
and any other per-field metadata are discarded). -/
theorem fromArrowStructFields_nameType (fs fs' : List ArrowField)
    (h : fs.map (fun f => (f.name, f.dataType))
        = fs'.map (fun f => (f.name, f.dataType))) :
    fromArrowStructFields fs = fromArrowStructFields fs' := by
  induction fs generalizing fs' with
  | nil =>
      cases fs' with
      | nil => rfl
      | cons b bs => simp at h
  | cons a as ih =>
      cases fs' with
      | nil => simp at h
      | cons b bs =>
          simp at h
          obtain ⟨⟨h1, h2⟩, h3⟩ := h
          cases a with
          | mk an at_ ab =>
              cases b with
              | mk bn bt bb =>
                  simp [ArrowField.name, ArrowField.dataType] at h1 h2
                  subst h1
                  subst h2
                  simp only [fromArrowStructFields]
                  rw [ih bs h3]

/-- Every field of an exported struct is marked nullable. -/
theorem structFieldsToArrow_nullable (ext : List (String × DataType)) :
    ∀ f ∈ structFieldsToArrow ext, f.nullable = true := by
  induction ext with
  | nil => intro f hf; cases hf
  | cons p rest ih =>
      cases p with
      | mk name t =>
          intro f hf
          cases hf with
          | head => rfl
          | tail _ hmem => exact ih f hmem

/-- C10: the import discards native-side metadata absent from the external
model — list element field name and nullability, the map keys-sorted flag and
inner-struct fields beyond the first two, and struct member nullability — so
it is non-injective on those; and re-export marks every struct member
nullable. -/
theorem C10_metadata_discarded :
    (∀ (n1 n2 : String) (t : ArrowDataType) (b1 b2 : Bool),
        DataType.from_arrow_data_type (.List (.mk n1 t b1))
          = DataType.from_arrow_data_type (.List (.mk n2 t b2))) ∧
    (∀ (n1 n2 : String) (t : ArrowDataType) (b1 b2 : Bool),
        DataType.from_arrow_data_type (.LargeList (.mk n1 t b1))
          = DataType.from_arrow_data_type (.LargeList (.mk n2 t b2))) ∧
    (∀ (f : ArrowField) (ks1 ks2 : Bool),
        DataType.from_arrow_data_type (.Map f ks1)
          = DataType.from_arrow_data_type (.Map f ks2)) ∧
    (∀ (en : String) (eb ks : Bool) (f0 f1 : ArrowField)
        (rest rest' : List ArrowField),
        DataType.from_arrow_data_type
            (.Map (.mk en (.Struct (f0 :: f1 :: rest)) eb) ks)
          = DataType.from_arrow_data_type
            (.Map (.mk en (.Struct (f0 :: f1 :: rest')) eb) ks)) ∧
    (∀ fs fs' : List ArrowField,
        fs.map (fun f => (f.name, f.dataType))
            = fs'.map (fun f => (f.name, f.dataType)) →
        DataType.from_arrow_data_type (.Struct fs)
          = DataType.from_arrow_data_type (.Struct fs')) ∧
    (∀ ext : List (String × DataType),
        (DataType.Struct ext).to_arrow_data_type
            = .Struct (structFieldsToArrow ext) ∧
        ∀ f ∈ structFieldsToArrow ext, f.nullable = true) := by
  refine ⟨fun _ _ _ _ _ => rfl, fun _ _ _ _ _ => rfl, fun f _ _ => ?_,
    fun en eb ks f0 f1 rest rest' => ?_, fun fs fs' h => ?_,
    fun ext => ⟨rfl, structFieldsToArrow_nullable ext⟩⟩
  · cases f with
    | mk nm inner nb =>
        rw [DataType.from_arrow_data_type.eq_def,
          DataType.from_arrow_data_type.eq_def]
  · cases f0 with
    | mk n0 t0 b0 =>
        cases f1 with
        | mk n1 t1 b1 =>
            rw [DataType.from_arrow_data_type.eq_def,
              DataType.from_arrow_data_type.eq_def]
  · simp only [DataType.from_arrow_data_type]
    rw [fromArrowStructFields_nameType fs fs' h]

/-- Witness for C10: two native structs differing only in member
nullability import identically. -/
theorem C10_metadata_discarded_witness :
    ([ArrowField.mk "a" .Int32 true].map (fun f => (f.name, f.dataType))
        = [ArrowField.mk "a" .Int32 false].map (fun f => (f.name, f.dataType))) ∧
    DataType.from_arrow_data_type (.Struct [.mk "a" .Int32 true])
      = DataType.from_arrow_data_type (.Struct [.mk "a" .Int32 false]) :=
  ⟨rfl, C10_metadata_discarded.2.2.2.2.1 [.mk "a" .Int32 true]
    [.mk "a" .Int32 false] rfl⟩

end DatafusionServer
